import Mathlib

/-!
Shallow embedding of the logrusbun query-logging hook (logrusbun.go).

Conventions of the embedding:
* Go `time.Time` and `time.Duration` are modelled as `Int` nanoseconds.
* `logrus.Level` is a `Nat` (logrus numbering: Panic=0, Fatal=1, Error=2,
  Warn=3, Info=4, Debug=5, Trace=6).
* The `error` stored in a `bun.QueryEvent` is `Option GoErr`, with dedicated
  constructors for the `sql.ErrNoRows` and `sql.ErrTxDone` sentinels.
* A Go `panic` is modelled as `Except.error`; logging output is modelled by
  returning the dispatched call `(LogMethod, rendered string)` instead of
  invoking a logger, so the `Logger` field of the options is not represented.
* The dynamic type switch on `event.QueryAppender` is modelled by a
  `QueryKind` discriminator field.
-/

namespace Logrusbun

/-- Modelled from the Go standard library: the identity of an `error` value
held in `bun.QueryEvent.Err`.  `errNoRows` is `sql.ErrNoRows`, `errTxDone`
is `sql.ErrTxDone`, `other` is any other non-nil error with its message. -/
inductive GoErr where
  | errNoRows
  | errTxDone
  | other (msg : String)
deriving DecidableEq

/-- Modelled from the Go standard library: the `Error()` message of each
modelled error value. -/
def GoErr.message : GoErr → String
  | .errNoRows => "sql: no rows in result set"
  | .errTxDone => "sql: transaction has already been committed or rolled back"
  | .other m => m

/-- Discriminator for the dynamic type of `event.QueryAppender`
(`eventOperation` switches on it); `other` covers every type not listed in
the switch. -/
inductive QueryKind where
  | selectQuery
  | insertQuery
  | updateQuery
  | deleteQuery
  | createTableQuery
  | dropTableQuery
  | other
deriving DecidableEq

/-- The fields of `bun.QueryEvent` that the hook reads. -/
structure QueryEvent where
  StartTime : Int
  Query : String
  Err : Option GoErr
  QueryAppender : QueryKind
deriving DecidableEq

namespace logrus

def PanicLevel : Nat := 0
def FatalLevel : Nat := 1
def ErrorLevel : Nat := 2
def WarnLevel : Nat := 3
def InfoLevel : Nat := 4
def DebugLevel : Nat := 5
def TraceLevel : Nat := 6

/-- Modelled from logrus: `Level.String()` (used by `%v` formatting). -/
def levelString : Nat → String
  | 0 => "panic"
  | 1 => "fatal"
  | 2 => "error"
  | 3 => "warning"
  | 4 => "info"
  | 5 => "debug"
  | 6 => "trace"
  | _ => "unknown"

end logrus

/-- `QueryHookOptions` from logrusbun.go (the `Logger` field is modelled by
returning the dispatched log call, so it is omitted here). -/
structure QueryHookOptions where
  LogSlow : Int := 0
  QueryLevel : Nat := 0
  SlowLevel : Nat := 0
  ErrorLevel : Nat := 0
  MessageTemplate : String := ""
  ErrorTemplate : String := ""
deriving DecidableEq

/-- A parsed template node: literal text or a `.Field` action.  Modelled
from the subset of Go `text/template` that the hook templates use. -/
inductive TemplatePart where
  | lit (s : String)
  | field (name : String)
deriving DecidableEq

/-- The curly-brace characters, named to keep them out of string literals. -/
def lbrace : Char := Char.ofNat 123

def rbrace : Char := Char.ofNat 125

/-- Scan an action body for the closing brace pair; returns the contents and
the remainder after it, or `none` when the action is never closed. -/
def splitAction : List Char → Option (List Char × List Char)
  | c1 :: c2 :: rest =>
    if c1 = rbrace ∧ c2 = rbrace then some ([], rest)
    else
      match splitAction (c2 :: rest) with
      | some (a, r) => some (c1 :: a, r)
      | none => none
  | _ => none

/-- An action body must be a dot followed by a nonempty alphanumeric field
name (the subset of `text/template` actions the hook uses). -/
def parseFieldName (inner : List Char) : Option String :=
  match inner with
  | c :: rest =>
    if c = '.' ∧ rest ≠ [] ∧ rest.all (fun d => d.isAlphanum) then
      some (String.mk rest)
    else none
  | [] => none

/-- Modelled from Go `text/template` parsing, restricted to literal text and
`.Field` actions: a double opening brace starts an action which must be
closed by a double closing brace and contain a field reference.  Fuel is the
input length plus one, enough for the scan. -/
def parseTemplateAux : Nat → List Char → Except String (List TemplatePart)
  | 0, _ => .error "template parse: out of fuel"
  | _, [] => .ok []
  | fuel + 1, c :: rest =>
    if c = lbrace then
      match rest with
      | c2 :: rest2 =>
        if c2 = lbrace then
          match splitAction rest2 with
          | none => .error "unclosed action"
          | some (inner, after) =>
            match parseFieldName inner with
            | none => .error "bad character in action"
            | some name => do
              let t ← parseTemplateAux fuel after
              .ok (TemplatePart.field name :: t)
        else do
          let t ← parseTemplateAux fuel rest
          .ok (TemplatePart.lit (String.mk [c]) :: t)
      | [] => .ok [TemplatePart.lit (String.mk [c])]
    else do
      let t ← parseTemplateAux fuel rest
      .ok (TemplatePart.lit (String.mk [c]) :: t)

def parseTemplate (s : String) : Except String (List TemplatePart) :=
  parseTemplateAux (s.toList.length + 1) s.toList

/-- `QueryHook` from logrusbun.go: the two flags, the stored options pointer
(`none` models the nil pointer) and the two parsed templates. -/
structure QueryHook where
  enabled : Bool := false
  verbose : Bool := false
  opts : Option QueryHookOptions := none
  errorTemplate : Option (List TemplatePart) := none
  messageTemplate : Option (List TemplatePart) := none
deriving DecidableEq

/-- A functional option (`type Option func(hook *QueryHook)`); `Except`
models that applying an option can panic. -/
def HookOption := QueryHook → Except String QueryHook

/-- `WithEnabled` enables or disables the hook (the Go parameter is named
`on`, a reserved word here). -/
def WithEnabled (b : Bool) : HookOption := fun h => .ok { h with enabled := b }

/-- `WithVerbose` configures the hook to log all queries. -/
def WithVerbose (b : Bool) : HookOption := fun h => .ok { h with verbose := b }

/-- The process environment, passed explicitly since the model is pure. -/
def Env := List (String × String)

/-- Modelled from the Go standard library: `os.LookupEnv`. -/
def lookupEnv (env : Env) (key : String) : Option String :=
  (List.find? (fun p => p.1 = key) env).map (fun p => p.2)

/-- The loop body of the option returned by `FromEnv`: the first key present
in the environment sets both flags and stops the scan. -/
def fromEnvLoop (env : Env) : List String → QueryHook → QueryHook
  | [], h => h
  | key :: rest, h =>
    match lookupEnv env key with
    | some v => { h with enabled := v != "" && v != "0", verbose := v == "2" }
    | none => fromEnvLoop env rest h

/-- `FromEnv` configures the hook from an environment variable; an empty key
list defaults to `BUNDEBUG`. -/
def FromEnv (env : Env) (keys : List String) : HookOption :=
  let keys := if keys = [] then ["BUNDEBUG"] else keys
  fun h => .ok (fromEnvLoop env keys h)

def defaultErrorTemplate : String :=
  "\x7b\x7b.Operation\x7d\x7d[\x7b\x7b.Duration\x7d\x7d]: \x7b\x7b.Query\x7d\x7d: \x7b\x7b.Error\x7d\x7d"

def defaultMessageTemplate : String :=
  "\x7b\x7b.Operation\x7d\x7d[\x7b\x7b.Duration\x7d\x7d]: \x7b\x7b.Query\x7d\x7d"

/-- `WithQueryHookOptions` fills in default templates, parses both templates
(panicking on a parse error) and stores everything on the hook. -/
def WithQueryHookOptions (opts : QueryHookOptions) : HookOption := fun h =>
  let opts :=
    if opts.ErrorTemplate = "" then { opts with ErrorTemplate := defaultErrorTemplate }
    else opts
  let opts :=
    if opts.MessageTemplate = "" then { opts with MessageTemplate := defaultMessageTemplate }
    else opts
  match parseTemplate opts.ErrorTemplate with
  | .error e => .error e
  | .ok errorTemplate =>
    match parseTemplate opts.MessageTemplate with
    | .error e => .error e
    | .ok messageTemplate =>
      .ok { h with
        opts := some opts
        errorTemplate := some errorTemplate
        messageTemplate := some messageTemplate }

/-- Apply options in order, stopping at the first panic. -/
def applyOptions : List HookOption → QueryHook → Except String QueryHook
  | [], h => .ok h
  | opt :: rest, h =>
    match opt h with
    | .error e => .error e
    | .ok h2 => applyOptions rest h2

/-- `NewQueryHook` applies the options to a zero hook and panics when no
option set the base configuration. -/
def NewQueryHook (options : List HookOption) : Except String QueryHook :=
  match applyOptions options {} with
  | .error e => .error e
  | .ok h =>
    match h.opts with
    | none => .error "logrus settings not set."
    | some _ => .ok h

/-- `BeforeQuery` does nothing: the context passes through unchanged. -/
def BeforeQuery (ctx : α) (_ : QueryEvent) : α := ctx

/-- Modelled from the Go standard library: the fraction step of
`time.Duration.String` — format the `prec` low decimal digits of `v` as a
fraction, dropping trailing zeros and the point when all digits are zero;
returns the fraction text and `v` with those digits removed. -/
def fmtFracAux : Nat → Nat → Bool → List Char → List Char × Nat
  | v, 0, print, acc => (if print then '.' :: acc else acc, v)
  | v, prec + 1, print, acc =>
    let digit := v % 10
    let print := print || digit ≠ 0
    let acc := if print then Char.ofNat (48 + digit) :: acc else acc
    fmtFracAux (v / 10) prec print acc

def fmtFrac (v : Nat) (prec : Nat) : String × Nat :=
  let (cs, rest) := fmtFracAux v prec false []
  (String.mk cs, rest)

/-- Modelled from the Go standard library: `time.Duration.String`
(nanosecond count to text such as `2s`, `1.5ms`, `1h2m3s`). -/
def durationString (d : Int) : String :=
  let u := d.natAbs
  let s :=
    if u < 1000000000 then
      if u = 0 then "0s"
      else if u < 1000 then toString u ++ "ns"
      else if u < 1000000 then
        let (frac, rest) := fmtFrac u 3
        toString rest ++ frac ++ "µs"
      else
        let (frac, rest) := fmtFrac u 6
        toString rest ++ frac ++ "ms"
    else
      let (frac, rest) := fmtFrac u 9
      let secs := toString (rest % 60) ++ frac ++ "s"
      let m := rest / 60
      if m > 0 then
        let mins := toString (m % 60) ++ "m"
        let hrs := m / 60
        if hrs > 0 then toString hrs ++ "h" ++ mins ++ secs else mins ++ secs
      else secs
  if d < 0 then "-" ++ s else s

/-- Modelled abstractly: Go renders a `time.Time` in its default format; no
claim depends on the exact text, only that it is a pure function of the
timestamp. -/
def timeString (t : Int) : String := toString t

/-- Modelled from Go `fmt`: a nil error interpolates as `<nil>`, otherwise
its message is printed. -/
def errString : Option GoErr → String
  | none => "<nil>"
  | some e => e.message

/-- `LogEntryVars` from logrusbun.go: the variables made available to a
template. -/
structure LogEntryVars where
  Timestamp : Int
  Query : String
  Operation : String
  Duration : Int
  Error : Option GoErr

/-- Modelled from Go `text/template` execution: a literal renders itself, a
field action renders the matching `LogEntryVars` field, and an unknown
field is an execution error. -/
def execPart (args : LogEntryVars) : TemplatePart → Except String String
  | .lit s => .ok s
  | .field n =>
    if n = "Timestamp" then .ok (timeString args.Timestamp)
    else if n = "Query" then .ok args.Query
    else if n = "Operation" then .ok args.Operation
    else if n = "Duration" then .ok (durationString args.Duration)
    else if n = "Error" then .ok (errString args.Error)
    else .error ("can't evaluate field " ++ n)

def execTemplate (args : LogEntryVars) : List TemplatePart → Except String String
  | [] => .ok ""
  | p :: rest =>
    match execPart args p with
    | .error e => .error e
    | .ok s =>
      match execTemplate args rest with
      | .error e => .error e
      | .ok r => .ok (s ++ r)

/-- `queryOperation` from logrusbun.go: cut the name at the first space when
that space is at a positive index, then cut to sixteen characters when
longer. -/
def queryOperation (name : String) : String :=
  let cs := name.toList
  let cs :=
    match cs.findIdx? (fun c => c = ' ') with
    | some idx => if idx > 0 then cs.take idx else cs
    | none => cs
  let cs := if cs.length > 16 then cs.take 16 else cs
  String.mk cs

/-- `eventOperation` from logrusbun.go: the type switch on
`event.QueryAppender`, falling back to `queryOperation` on the query text. -/
def eventOperation (event : QueryEvent) : String :=
  match event.QueryAppender with
  | .selectQuery => "SELECT"
  | .insertQuery => "INSERT"
  | .updateQuery => "UPDATE"
  | .deleteQuery => "DELETE"
  | .createTableQuery => "CREATE TABLE"
  | .dropTableQuery => "DROP TABLE"
  | .other => queryOperation event.Query

/-- The non-verbose gate of `AfterQuery`: the outcomes of the
`case nil, sql.ErrNoRows, sql.ErrTxDone` switch that return early. -/
def suppressedOutcome : Option GoErr → Bool
  | none => true
  | some .errNoRows => true
  | some .errTxDone => true
  | some (.other _) => false

/-- The classification switch of `AfterQuery`: `nil` and `sql.ErrNoRows`
fall in the non-error case, everything else is an error. -/
def isErrOutcome : Option GoErr → Bool
  | none => false
  | some .errNoRows => false
  | some .errTxDone => true
  | some (.other _) => true

/-- The level resolution of `AfterQuery`: errors use `ErrorLevel`; otherwise
`SlowLevel` when a positive `LogSlow` is met by the duration, else
`QueryLevel`. -/
def resolveLevel (opts : QueryHookOptions) (err : Option GoErr) (dur : Int) : Nat :=
  if isErrOutcome err then opts.ErrorLevel
  else if opts.LogSlow > 0 ∧ dur ≥ opts.LogSlow then opts.SlowLevel
  else opts.QueryLevel

/-- The logger method called by the dispatch switch of `AfterQuery`. -/
inductive LogMethod where
  | debug
  | info
  | warn
  | error
  | fatal
  | panicL
deriving DecidableEq

/-- The dispatch switch of `AfterQuery`: a supported level maps to its
logger method, anything else falls to the `default` panic. -/
def dispatchLevel : Nat → Option LogMethod
  | 5 => some .debug
  | 4 => some .info
  | 3 => some .warn
  | 2 => some .error
  | 1 => some .fatal
  | 0 => some .panicL
  | _ => none

/-- `AfterQuery` from logrusbun.go.  `now` stands for `time.Now()`.  The
result is `.ok none` for a silent return, `.ok (some (m, s))` for a call of
logger method `m` with rendered text `s`, and `.error` for a panic
(including the nil-pointer dereferences a nil `opts` or nil template would
cause in Go). -/
def AfterQuery (h : QueryHook) (now : Int) (event : QueryEvent) :
    Except String (Option (LogMethod × String)) :=
  if h.enabled = false then .ok none
  else if h.verbose = false ∧ suppressedOutcome event.Err = true then .ok none
  else
    match h.opts with
    | none => .error "runtime error: invalid memory address or nil pointer dereference"
    | some opts =>
      let dur := now - event.StartTime
      let isError := isErrOutcome event.Err
      let level := resolveLevel opts event.Err dur
      if level = 0 then .ok none
      else
        let args : LogEntryVars :=
          { Timestamp := now
            Query := event.Query
            Operation := eventOperation event
            Duration := dur
            Error := event.Err }
        let rendered :=
          if isError then
            match h.errorTemplate with
            | none => Except.error "runtime error: invalid memory address or nil pointer dereference"
            | some t => execTemplate args t
          else
            match h.messageTemplate with
            | none => Except.error "runtime error: invalid memory address or nil pointer dereference"
            | some t => execTemplate args t
        match rendered with
        | .error e => .error e
        | .ok msg =>
          match dispatchLevel level with
          | some m => .ok (some (m, msg))
          | none => .error ("Unsupported level: " ++ logrus.levelString level)

/-- Modelled from the spec words, for comparison with `queryOperation`:
"take the substring up to (not including) the first space character, if
any; then truncate to at most 16 characters." -/
def queryOperationSpec (name : String) : String :=
  let cs := name.toList
  let cs :=
    match cs.findIdx? (fun c => c = ' ') with
    | some idx => cs.take idx
    | none => cs
  String.mk (cs.take 16)

/-- Modelled from the amended claim: cut at the first space only when it
occurs at a positive index (a leading space does not cut), then truncate to
at most 16 characters. -/
def queryOperationSpecAmended (name : String) : String :=
  let cs := name.toList
  let cs :=
    match cs.findIdx? (fun c => c = ' ') with
    | some idx => if idx > 0 then cs.take idx else cs
    | none => cs
  String.mk (cs.take 16)

/- Concrete configurations and events used by the scenario theorems and the
witnesses. -/

def slowOpts : QueryHookOptions :=
  { LogSlow := 1000000000
    QueryLevel := logrus.DebugLevel
    SlowLevel := logrus.WarnLevel
    ErrorLevel := logrus.ErrorLevel }

def usersEvent : QueryEvent :=
  { StartTime := 0, Query := "SELECT * FROM users", Err := none, QueryAppender := .other }

def zeroHook : QueryHook := {}

def nonverboseHook : QueryHook :=
  { enabled := true, verbose := false, opts := some slowOpts }

def quietHook : QueryHook :=
  { enabled := true, verbose := true, opts := some {} }

def verboseSlowHook : QueryHook :=
  { enabled := true
    verbose := true
    opts := some slowOpts
    errorTemplate := (parseTemplate defaultErrorTemplate).toOption
    messageTemplate := (parseTemplate defaultMessageTemplate).toOption }

def badTemplateOpts : QueryHookOptions := { ErrorTemplate := "\x7b\x7b.Error\x7d" }

def fooOpts : QueryHookOptions :=
  { MessageTemplate := "\x7b\x7b.Foo\x7d\x7d", QueryLevel := logrus.DebugLevel }

def traceOpts : QueryHookOptions := { QueryLevel := logrus.TraceLevel }

def simpleEvent : QueryEvent :=
  { StartTime := 0, Query := "SELECT 1", Err := none, QueryAppender := .other }

def leadingSpaceEvent : QueryEvent :=
  { StartTime := 0, Query := " X", Err := none, QueryAppender := .other }

def truncEvent : QueryEvent :=
  { StartTime := 0
    Query := "SELECTSELECTSELECTSELECTSELECT columns"
    Err := none
    QueryAppender := .other }

/- Helper lemmas. -/

/-- Taking sixteen characters only when the list is longer is the same as
always taking sixteen. -/
theorem take16_of_ite (cs : List Char) :
    (if cs.length > 16 then cs.take 16 else cs) = cs.take 16 := by
  split
  · rfl
  · exact (List.take_of_length_le (by omega)).symm

/-- The same fact under `String.mk`, stated so it is definitionally a proof
of `queryOperation name = queryOperationSpecAmended name`. -/
theorem mk_take16 (ds : List Char) :
    String.mk (if ds.length > 16 then ds.take 16 else ds) = String.mk (ds.take 16) :=
  congrArg String.mk (take16_of_ite ds)

/-- A nonzero level never dispatches to the panic logger method. -/
theorem dispatchLevel_ne_panicL (l : Nat) (hl : l ≠ 0) (m : LogMethod)
    (hm : dispatchLevel l = some m) : m ≠ LogMethod.panicL := by
  intro hp
  subst hp
  rcases l with _ | _ | _ | _ | _ | _ | n
  · exact hl rfl
  · exact LogMethod.noConfusion (Option.some.inj hm)
  · exact LogMethod.noConfusion (Option.some.inj hm)
  · exact LogMethod.noConfusion (Option.some.inj hm)
  · exact LogMethod.noConfusion (Option.some.inj hm)
  · exact LogMethod.noConfusion (Option.some.inj hm)
  · exact Option.noConfusion hm

/-- C3: for every QueryEvent and every configuration, a hook whose enabled
flag is false performs no logging and no other side effects in AfterQuery. -/
theorem afterQuery_disabled_silent (h : QueryHook) (now : Int) (ev : QueryEvent)
    (hd : h.enabled = false) : AfterQuery h now ev = .ok none := by
  simp [AfterQuery, hd]

theorem afterQuery_disabled_silent_witness :
    AfterQuery zeroHook 5 usersEvent = .ok none :=
  afterQuery_disabled_silent zeroHook 5 usersEvent rfl

/-- C1: with the hook enabled and verbose off, an event whose outcome is
nil, the no-rows sentinel or the transaction-already-done sentinel produces
no log output, whatever the slow threshold and duration. -/
theorem afterQuery_nonverbose_success_silent (h : QueryHook) (now : Int)
    (ev : QueryEvent) (he : h.enabled = true) (hv : h.verbose = false)
    (herr : ev.Err = none ∨ ev.Err = some GoErr.errNoRows ∨ ev.Err = some GoErr.errTxDone) :
    AfterQuery h now ev = .ok none := by
  have hs : suppressedOutcome ev.Err = true := by
    rcases herr with h1 | h1 | h1 <;> rw [h1] <;> rfl
  simp [AfterQuery, he, hv, hs]

theorem afterQuery_nonverbose_success_silent_witness :
    AfterQuery nonverboseHook 2000000000 usersEvent = .ok none :=
  afterQuery_nonverbose_success_silent nonverboseHook 2000000000 usersEvent rfl rfl
    (Or.inl rfl)

/-- C2: at the classification step, nil and no-rows outcomes are non-errors
whose severity is the slow level exactly when a positive threshold is met,
and every other outcome is an error logged at the error level. -/
theorem resolveLevel_classification (opts : QueryHookOptions) (err : Option GoErr)
    (dur : Int) :
    ((err = none ∨ err = some GoErr.errNoRows) →
      isErrOutcome err = false ∧
      resolveLevel opts err dur =
        if opts.LogSlow > 0 ∧ dur ≥ opts.LogSlow then opts.SlowLevel else opts.QueryLevel)
    ∧ (¬(err = none ∨ err = some GoErr.errNoRows) →
      isErrOutcome err = true ∧ resolveLevel opts err dur = opts.ErrorLevel) := by
  constructor
  · rintro (h1 | h1) <;> subst h1 <;> exact ⟨rfl, rfl⟩
  · intro hne
    match err with
    | none => exact absurd (Or.inl rfl) hne
    | some .errNoRows => exact absurd (Or.inr rfl) hne
    | some .errTxDone => exact ⟨rfl, rfl⟩
    | some (.other m) => exact ⟨rfl, rfl⟩

theorem resolveLevel_classification_witness :
    isErrOutcome (some GoErr.errTxDone) = true ∧
    resolveLevel slowOpts (some GoErr.errTxDone) 500 = slowOpts.ErrorLevel :=
  (resolveLevel_classification slowOpts (some GoErr.errTxDone) 500).2 (by decide)

/-- C5: an event that passes the enabled and verbose gates but resolves to
the unset/zero severity is skipped silently with no output and no panic. -/
theorem afterQuery_unset_level_silent (h : QueryHook) (now : Int) (ev : QueryEvent)
    (opts : QueryHookOptions) (he : h.enabled = true) (ho : h.opts = some opts)
    (hg : h.verbose = true ∨ suppressedOutcome ev.Err = false)
    (hl : resolveLevel opts ev.Err (now - ev.StartTime) = 0) :
    AfterQuery h now ev = .ok none := by
  rcases hg with hg | hg
  · simp [AfterQuery, he, hg, ho, hl]
  · by_cases hv : h.verbose = true
    · simp [AfterQuery, he, hv, ho, hl]
    · simp [AfterQuery, he, hg, ho, hl]

theorem afterQuery_unset_level_silent_witness :
    AfterQuery quietHook 7 usersEvent = .ok none :=
  afterQuery_unset_level_silent quietHook 7 usersEvent {} rfl rfl (Or.inl rfl) rfl

/-- C4: the FromEnv option leaves the hook unchanged when the variable is
absent, disables it on an empty or zero value, enables it verbose on the
value two, and enables it non-verbose on any other non-empty value. -/
theorem fromEnv_value_mapping (env : Env) (h : QueryHook) :
    (lookupEnv env "BUNDEBUG" = none → FromEnv env [] h = .ok h)
    ∧ (∀ v, lookupEnv env "BUNDEBUG" = some v →
        ∃ h2, FromEnv env [] h = .ok h2 ∧
          h2.enabled = (if v = "" ∨ v = "0" then false else true) ∧
          h2.verbose = (if v = "2" then true else false) ∧
          h2.opts = h.opts ∧ h2.errorTemplate = h.errorTemplate ∧
          h2.messageTemplate = h.messageTemplate) := by
  constructor
  · intro hnone
    simp [FromEnv, fromEnvLoop, hnone]
  · intro v hv
    refine ⟨{ h with enabled := v != "" && v != "0", verbose := v == "2" }, ?_, ?_, ?_, rfl, rfl, rfl⟩
    · simp [FromEnv, fromEnvLoop, hv]
    · by_cases h1 : v = "" <;> by_cases h2 : v = "0" <;> simp [h1, h2]
    · by_cases h1 : v = "2" <;> simp [h1]

theorem fromEnv_value_mapping_witness :
    ∃ h2, FromEnv [("BUNDEBUG", "2")] [] zeroHook = .ok h2 ∧
      h2.enabled = (if "2" = "" ∨ "2" = "0" then false else true) ∧
      h2.verbose = (if "2" = "2" then true else false) ∧
      h2.opts = zeroHook.opts ∧ h2.errorTemplate = zeroHook.errorTemplate ∧
      h2.messageTemplate = zeroHook.messageTemplate :=
  (fromEnv_value_mapping [("BUNDEBUG", "2")] zeroHook).2 "2" rfl

/-- C6: missing base configuration, an unparseable template, a
template-rendering failure and an unsupported severity at dispatch each
panic: NewQueryHook with no base options, WithQueryHookOptions with the
unclosed error template, AfterQuery rendering an unknown field and
AfterQuery dispatching the trace level. -/
theorem construction_and_dispatch_panics :
    NewQueryHook [] = .error "logrus settings not set."
    ∧ WithQueryHookOptions badTemplateOpts {} = .error "unclosed action"
    ∧ (NewQueryHook [WithEnabled true, WithVerbose true,
        WithQueryHookOptions fooOpts]).bind
        (fun h => AfterQuery h 1 simpleEvent) = .error "can't evaluate field Foo"
    ∧ (NewQueryHook [WithEnabled true, WithVerbose true,
        WithQueryHookOptions traceOpts]).bind
        (fun h => AfterQuery h 1 simpleEvent)
      = .error ("Unsupported level: " ++ logrus.levelString logrus.TraceLevel) :=
  ⟨rfl, rfl, rfl, rfl⟩

/-- C7 counterexample: a query whose first space is at index zero is not
cut by the code, while the claim as stated cuts it to the empty string. -/
theorem eventOperation_leading_space_cex :
    eventOperation leadingSpaceEvent = " X" ∧
    queryOperationSpec leadingSpaceEvent.Query = "" ∧
    eventOperation leadingSpaceEvent ≠ queryOperationSpec leadingSpaceEvent.Query := by
  decide

/-- The code derivation agrees with the amended wording on every string. -/
theorem queryOperation_eq_specAmended (name : String) :
    queryOperation name = queryOperationSpecAmended name :=
  mk_take16 _

/-- C7 amended: a recognized structured query kind maps to its canonical
keyword; otherwise the name is the query text cut at the first space only
when that space is at a positive index, then truncated to sixteen
characters. -/
theorem eventOperation_amended (ev : QueryEvent) :
    (ev.QueryAppender = QueryKind.selectQuery → eventOperation ev = "SELECT")
    ∧ (ev.QueryAppender = QueryKind.insertQuery → eventOperation ev = "INSERT")
    ∧ (ev.QueryAppender = QueryKind.updateQuery → eventOperation ev = "UPDATE")
    ∧ (ev.QueryAppender = QueryKind.deleteQuery → eventOperation ev = "DELETE")
    ∧ (ev.QueryAppender = QueryKind.createTableQuery → eventOperation ev = "CREATE TABLE")
    ∧ (ev.QueryAppender = QueryKind.dropTableQuery → eventOperation ev = "DROP TABLE")
    ∧ (ev.QueryAppender = QueryKind.other →
        eventOperation ev = queryOperationSpecAmended ev.Query) := by
  refine ⟨?_, ?_, ?_, ?_, ?_, ?_, ?_⟩ <;> intro hk <;> simp [eventOperation, hk]
  exact queryOperation_eq_specAmended ev.Query

theorem eventOperation_amended_witness :
    eventOperation truncEvent = queryOperationSpecAmended truncEvent.Query ∧
    eventOperation truncEvent = "SELECTSELECTSELE" :=
  ⟨(eventOperation_amended truncEvent).2.2.2.2.2.2 rfl, by decide⟩

/-- C8: applying FromEnv with value two and the base-configuration option
afterwards keeps enabled and verbose true, since the base option does not
touch those fields. -/
theorem env_then_base_options :
    (NewQueryHook [FromEnv [("BUNDEBUG", "2")] ["BUNDEBUG"],
      WithQueryHookOptions {}]).map (fun h => (h.enabled, h.verbose))
    = .ok (true, true) := rfl

/-- C9: with the default message template and the scenario configuration, a
two-second successful query is dispatched at the warn level with the exact
rendered text. -/
theorem default_template_slow_scenario :
    (NewQueryHook [WithEnabled true, WithVerbose true,
      WithQueryHookOptions slowOpts]).bind
      (fun h => AfterQuery h 2000000000 usersEvent)
    = .ok (some (LogMethod.warn, "SELECT[2s]: SELECT * FROM users")) := rfl

/-- C10: the panic level is the zero level, so an event resolving to it
takes the zero-level early return, and the panic case of the dispatch
switch is unreachable: no AfterQuery call ever produces a panic-method log
call. -/
theorem panic_level_unreachable :
    logrus.PanicLevel = 0
    ∧ (∀ (h : QueryHook) (now : Int) (ev : QueryEvent) (opts : QueryHookOptions),
        h.opts = some opts →
        resolveLevel opts ev.Err (now - ev.StartTime) = logrus.PanicLevel →
        AfterQuery h now ev = .ok none)
    ∧ (∀ (h : QueryHook) (now : Int) (ev : QueryEvent) (m : LogMethod) (s : String),
        AfterQuery h now ev = .ok (some (m, s)) → m ≠ LogMethod.panicL) := by
  refine ⟨rfl, ?_, ?_⟩
  · intro h now ev opts ho hl
    by_cases he : h.enabled = true
    · by_cases hv : h.verbose = true
      · simp [AfterQuery, he, hv, ho, hl, logrus.PanicLevel]
      · by_cases hs : suppressedOutcome ev.Err = true
        · simp [AfterQuery, he, hv, hs]
        · simp [AfterQuery, he, hv, hs, ho, hl, logrus.PanicLevel]
    · simp [AfterQuery, he]
  · intro h now ev m s hres
    simp only [AfterQuery] at hres
    split at hres
    · exact absurd hres (by simp)
    · split at hres
      · exact absurd hres (by simp)
      · split at hres
        · exact absurd hres (by simp)
        · split at hres
          · exact absurd hres (by simp)
          · split at hres
            · exact absurd hres (by simp)
            · split at hres
              · rename_i m2 hdisp
                have hms := Option.some.inj (Except.ok.inj hres)
                have hm : m2 = m := congrArg Prod.fst hms
                refine hm ▸ dispatchLevel_ne_panicL _ ?_ m2 hdisp
                assumption
              · exact absurd hres (by simp)

theorem panic_level_unreachable_witness : LogMethod.warn ≠ LogMethod.panicL :=
  panic_level_unreachable.2.2 verboseSlowHook 2000000000 usersEvent LogMethod.warn
    "SELECT[2s]: SELECT * FROM users" rfl

end Logrusbun
